import Mathlib

/-!
Shallow embedding of src/article_summarizer.py.

The program reads a provider choice and article text from standard input,
wraps the article in a fixed instruction template, sends it to one of three
HTTP backends (Ollama, OpenAI, Anthropic), validates the returned summary,
displays it, and copies it to the clipboard.

The embedding models the outside world explicitly: standard input is a list
of lines, each credential is an `Option String` (the value of the
environment variable, `none` when unset), the single HTTP POST of a run is
an `HttpOutcome`, and clipboard availability is a `Bool`.  Side effects that
the claims talk about (HTTP requests, displaying the summary, clipboard
writes, printed messages) are collected in an effect trace.
-/

/-- JSON values, as produced by parsing an HTTP response body.  Objects are
association lists with distinct keys, matching a parsed Python dict. -/
inductive Json where
  | null
  | bool (b : Bool)
  | num (n : Int)
  | str (s : String)
  | arr (xs : List Json)
  | obj (fields : List (String × Json))

/-- Python truthiness of a JSON value, as tested by `if not summary`. -/
def pyTruthy : Json → Bool
  | .null => false
  | .bool b => b
  | .num n => decide (n ≠ 0)
  | .str s => decide (s ≠ "")
  | .arr xs => !xs.isEmpty
  | .obj fs => !fs.isEmpty

/-- ASCII whitespace, the characters removed by Python str.strip(). -/
def isPySpace (c : Char) : Bool :=
  c = ' ' || c = '\t' || c = '\n' || c = '\r' || c = '\x0B' || c = '\x0C'

/-- Python str.strip(): remove leading and trailing whitespace. -/
def pyStrip (s : String) : String :=
  String.mk (((s.data.dropWhile isPySpace).reverse.dropWhile isPySpace).reverse)

/-- Result of running a piece of the program: a normal return, a call to
sys.exit(code), or an uncaught exception (which also terminates the process
with a nonzero status). -/
inductive PyResult (α : Type) where
  | ok (a : α)
  | exit (code : Nat)
  | exn (msg : String)

/-- The outcome terminates the process with a nonzero status: sys.exit with
a nonzero code, or an uncaught exception. -/
def PyResult.isFatal {α : Type} : PyResult α → Bool
  | .ok _ => false
  | .exit c => decide (c ≠ 0)
  | .exn _ => true

/-- Side effects observable by the claims: an HTTP POST (with the prompt and
model placed in its payload), displaying the summary, a clipboard write, and
other printed messages. -/
inductive Eff where
  | httpPost (url : String) (prompt : String) (model : String)
  | display (summary : Json)
  | clipCopy (text : Json)
  | printMsg (msg : String)

/-- Outcome of the single HTTP POST a run performs: connection refused,
another transport or HTTP-status error, a body that is not valid JSON, or a
successfully parsed JSON body. -/
inductive HttpOutcome where
  | connectionError
  | requestError (msg : String)
  | invalidJson
  | success (body : Json)

/-- Errors raised by Python subscripting, as distinguished by the except
clauses of the provider clients: KeyError and IndexError are caught and turn
into sys.exit(1), TypeError is not caught. -/
inductive SubErr where
  | keyError
  | indexError
  | typeError

/-- Lookup of a string key in a parsed JSON object. -/
def lookupField : List (String × Json) → String → Option Json
  | [], _ => none
  | (k, v) :: fs, key => if k = key then some v else lookupField fs key

/-- Python subscripting `value[key]` with a string key: field access on a
dict (KeyError when absent), TypeError on any other value. -/
def Json.subKey : Json → String → Except SubErr Json
  | .obj fs, key =>
    match lookupField fs key with
    | some v => .ok v
    | none => .error .keyError
  | _, _ => .error .typeError

/-- Python subscripting `value[i]` with a natural index: list indexing
(IndexError when out of range), string indexing (yielding a one-character
string), KeyError on a dict whose keys are strings, TypeError otherwise. -/
def Json.subIdx : Json → Nat → Except SubErr Json
  | .arr xs, i =>
    if h : i < xs.length then .ok (xs.get ⟨i, h⟩) else .error .indexError
  | .str s, i =>
    if h : i < s.data.length then .ok (.str (String.mk [s.data.get ⟨i, h⟩]))
    else .error .indexError
  | .obj _, _ => .error .keyError
  | _, _ => .error .typeError

/-- select_ai_provider (lines 17-36): read a line, strip it, map "1"/"2"/"3"
to the provider identifiers, and repeat on anything else.  The loop consumes
lines from standard input; if input is exhausted first, the Python input()
call raises EOFError, modelled as `none`. -/
def select_ai_provider : List String → Option (String × List String)
  | [] => none
  | line :: rest =>
    let choice := pyStrip line
    if choice = "1" then some ("ollama", rest)
    else if choice = "2" then some ("openai", rest)
    else if choice = "3" then some ("anthropic", rest)
    else select_ai_provider rest

/-- get_user_input (lines 39-55): read lines until end of input and join
them with newline separators. -/
def get_user_input (lines : List String) : String :=
  String.intercalate "\n" lines

/-- A run of spaces, for the long runs of trailing spaces inside the prompt
template literal. -/
def spaceRun (n : Nat) : String :=
  String.mk (List.replicate n ' ')

/-- The fixed instruction template of create_summary_prompt (lines 62-85)
is everything before the interpolated article text.  It is transcribed
below as a concatenation split at the three markers "Summary:",
"The details:" and "Why it matters:"; the source lines carry a tab before
the indented template lines, one trailing space after "[!Abstract]- ",
"words.] " and "The details:** ", 85 trailing spaces after
"[Key point #3]" and 82 after "Why it matters:**".  This is the text up to
the "Summary:" marker. -/
def promptHeader1 : String :=
  "Please summarize the following article using this exact format. IMPORTANT Use only this format and no other:\n\n> [!Abstract]- \n>**"

/-- Template text between the "Summary:" and "The details:" markers. -/
def promptHeader2 : String :=
  "**\n\t>>[One-sentence overview of the article\x27s main point in 30-45 words.] \n\t>\n>**"

/-- Template text between the "The details:" and "Why it matters:" markers. -/
def promptHeader3 : String :=
  "** \n\t> - [Key point #1]\n\t> - [Key point #2]\n\t> - [Key point #3]"
    ++ spaceRun 85
    ++ "\n(Include 3--5 concise bullet points highlighting the most important factual or contextual details.)\n>\n>**"

/-- Template text after the "Why it matters:" marker, up to the point where
the article text is interpolated. -/
def promptHeader4 : String :=
  "**"
    ++ spaceRun 82
    ++ "\n     >>[Briefly explain the significance or impact of the article\x27s content. Focus on why readers should care or what the broader implications are.]\n\nMake sure the summary is:\n- Succinct (no fluff)\n- Fact-based\n- Easy to skim\n- Written in plain, neutral, professional language\n- Written in markdown format\n\nArticle to summarize:\n"

/-- The full fixed template header, split at the three markers. -/
def promptHeader : String :=
  promptHeader1 ++ "Summary:" ++ promptHeader2 ++ "The details:" ++ promptHeader3
    ++ "Why it matters:" ++ promptHeader4

/-- create_summary_prompt (lines 58-87): the fixed template with the
article text interpolated verbatim at the end. -/
def create_summary_prompt (article_text : String) : String :=
  promptHeader ++ article_text

/-- query_ollama (lines 90-136): POST to the local daemon; on success,
result.get("response", "") — the value of the top-level response field,
defaulting to the empty string; calling .get on a non-dict raises an
uncaught AttributeError.  Connection errors, other request errors and
invalid JSON each call sys.exit(1). -/
def query_ollama (net : HttpOutcome) (prompt : String) (model : String) :
    PyResult Json × List Eff :=
  let effs := [Eff.httpPost "http://localhost:11434/api/generate" prompt model]
  match net with
  | .connectionError => (.exit 1, effs)
  | .requestError _ => (.exit 1, effs)
  | .invalidJson => (.exit 1, effs)
  | .success body =>
    match body with
    | .obj fs => (.ok ((lookupField fs "response").getD (.str "")), effs)
    | _ => (.exn "AttributeError", effs)

/-- Response extraction of query_openai (line 174):
result["choices"][0]["message"]["content"]. -/
def extract_openai (body : Json) : Except SubErr Json := do
  let choices ← body.subKey "choices"
  let first ← choices.subIdx 0
  let message ← first.subKey "message"
  message.subKey "content"

/-- query_openai (lines 139-183): exit fatally when the OPENAI_API_KEY
environment variable is unset or empty, before any HTTP request; otherwise
POST and extract choices[0].message.content, where KeyError and IndexError
are caught and exit(1), and a TypeError from subscripting a non-container
is uncaught. -/
def query_openai (api_key : Option String) (net : HttpOutcome)
    (prompt : String) (model : String) : PyResult Json × List Eff :=
  match api_key with
  | none => (.exit 1, [])
  | some key =>
    if key = "" then (.exit 1, [])
    else
      let effs := [Eff.httpPost "https://api.openai.com/v1/chat/completions" prompt model]
      match net with
      | .connectionError => (.exit 1, effs)
      | .requestError _ => (.exit 1, effs)
      | .invalidJson => (.exit 1, effs)
      | .success body =>
        match extract_openai body with
        | .ok v => (.ok v, effs)
        | .error .keyError => (.exit 1, effs)
        | .error .indexError => (.exit 1, effs)
        | .error .typeError => (.exn "TypeError", effs)

/-- Response extraction of query_anthropic (line 222):
result["content"][0]["text"]. -/
def extract_anthropic (body : Json) : Except SubErr Json := do
  let content ← body.subKey "content"
  let first ← content.subIdx 0
  first.subKey "text"

/-- query_anthropic (lines 186-231): exit fatally when the
ANTHROPIC_API_KEY environment variable is unset or empty, before any HTTP
request; otherwise POST and extract content[0].text, with the same error
handling as query_openai. -/
def query_anthropic (api_key : Option String) (net : HttpOutcome)
    (prompt : String) (model : String) : PyResult Json × List Eff :=
  match api_key with
  | none => (.exit 1, [])
  | some key =>
    if key = "" then (.exit 1, [])
    else
      let effs := [Eff.httpPost "https://api.anthropic.com/v1/messages" prompt model]
      match net with
      | .connectionError => (.exit 1, effs)
      | .requestError _ => (.exit 1, effs)
      | .invalidJson => (.exit 1, effs)
      | .success body =>
        match extract_anthropic body with
        | .ok v => (.ok v, effs)
        | .error .keyError => (.exit 1, effs)
        | .error .indexError => (.exit 1, effs)
        | .error .typeError => (.exn "TypeError", effs)

/-- copy_to_clipboard (lines 234-242): try to copy; on success print a
confirmation, on any clipboard failure catch the exception and print a
warning instead.  Never raises to the caller (modelled as a total function
into an effect trace). -/
def copy_to_clipboard (clip_fails : Bool) (text : Json) : List Eff :=
  if clip_fails then
    [Eff.printMsg "Warning: Could not copy to clipboard"]
  else
    [Eff.clipCopy text, Eff.printMsg "Summary copied to clipboard!"]

/-- get_ai_response (lines 245-260): dispatch on the provider identifier
string; the final branch is the defensive unknown-provider exit(1). -/
def get_ai_response (provider : String) (prompt : String)
    (openai_key anthropic_key : Option String) (net : HttpOutcome) :
    PyResult Json × List Eff :=
  if provider = "ollama" then query_ollama net prompt "gemma3:latest"
  else if provider = "openai" then query_openai openai_key net prompt "gpt-4"
  else if provider = "anthropic" then
    query_anthropic anthropic_key net prompt "claude-3-sonnet-20240229"
  else (.exit 1, [])

/-- The body of main after a provider has been selected (lines 278-306):
read the article, exit(1) if it strips to empty, build the prompt, query
the provider, exit(1) on a falsy summary, otherwise display it and copy it
to the clipboard. -/
def main_after_select (provider : String) (remaining : List String)
    (openai_key anthropic_key : Option String) (net : HttpOutcome)
    (clip_fails : Bool) : PyResult Unit × List Eff :=
  if pyStrip (get_user_input remaining) = "" then (.exit 1, [])
  else
    match get_ai_response provider (create_summary_prompt (get_user_input remaining))
        openai_key anthropic_key net with
    | (.ok summary, effs) =>
      if pyTruthy summary then
        (.ok (), effs ++ [Eff.display summary] ++ copy_to_clipboard clip_fails summary)
      else (.exit 1, effs)
    | (.exit c, effs) => (.exit c, effs)
    | (.exn m, effs) => (.exn m, effs)

/-- main (lines 263-306): select a provider from standard input (an EOF
during selection is an uncaught EOFError), then run the rest of the
pipeline on the remaining input lines.  Named main_run because Lean
reserves the name main for an IO entry point. -/
def main_run (inputs : List String) (openai_key anthropic_key : Option String)
    (net : HttpOutcome) (clip_fails : Bool) : PyResult Unit × List Eff :=
  match select_ai_provider inputs with
  | none => (.exn "EOFError", [])
  | some (provider, remaining) =>
    main_after_select provider remaining openai_key anthropic_key net clip_fails

set_option maxRecDepth 4096 in
/-- Sanity check: the fixed template header has the exact length implied by
the source lines 62-85 (108 + 1 newline for line 62, the lines 63-84 with
their newlines: 782 + 22). -/
theorem promptHeader_length : promptHeader.length = 913 := by decide

/-- String concatenation is associative, by reduction to list append. -/
theorem string_append_assoc : ∀ a b c : String, a ++ b ++ c = a ++ (b ++ c)
  | ⟨as⟩, ⟨bs⟩, ⟨cs⟩ => congrArg String.mk (List.append_assoc as bs cs)

/-- The string pat occurs as a substring of s. -/
def containsStr (s pat : String) : Prop :=
  ∃ l r, s = l ++ (pat ++ r)

/-- C1: for every article text, the prompt builder output ends with the
article text verbatim (it is a suffix) and contains the three fixed
template markers "Summary:", "The details:" and "Why it matters:"; the
builder is a pure total function on strings with no error branch. -/
theorem c1_prompt_builder (a : String) :
    (∃ l, create_summary_prompt a = l ++ a) ∧
    containsStr (create_summary_prompt a) "Summary:" ∧
    containsStr (create_summary_prompt a) "The details:" ∧
    containsStr (create_summary_prompt a) "Why it matters:" := by
  refine ⟨⟨promptHeader, rfl⟩,
    ⟨promptHeader1,
      promptHeader2 ++ "The details:" ++ promptHeader3 ++ "Why it matters:"
        ++ promptHeader4 ++ a, ?_⟩,
    ⟨promptHeader1 ++ "Summary:" ++ promptHeader2,
      promptHeader3 ++ "Why it matters:" ++ promptHeader4 ++ a, ?_⟩,
    ⟨promptHeader1 ++ "Summary:" ++ promptHeader2 ++ "The details:" ++ promptHeader3,
      promptHeader4 ++ a, ?_⟩⟩ <;>
  simp only [create_summary_prompt, promptHeader, string_append_assoc]

/-- C3: each cloud provider client exits fatally (exit 1) when its
credential environment variable is unset or empty, performing no HTTP
request: the result carries an empty effect trace and is the same whatever
the network would have answered. -/
theorem c3_missing_credentials (net : HttpOutcome) (prompt model : String) :
    query_openai none net prompt model = (PyResult.exit 1, []) ∧
    query_openai (some "") net prompt model = (PyResult.exit 1, []) ∧
    query_anthropic none net prompt model = (PyResult.exit 1, []) ∧
    query_anthropic (some "") net prompt model = (PyResult.exit 1, []) :=
  ⟨rfl, by simp [query_openai], rfl, by simp [query_anthropic]⟩

/-- C5: the local daemon client extracts the value of the top-level
response field of the JSON reply, and yields the empty string when the
field is absent, without raising inside the client. -/
theorem c5_ollama_extraction (fs : List (String × Json)) (p m : String) (v : Json) :
    (lookupField fs "response" = some v →
      (query_ollama (HttpOutcome.success (Json.obj fs)) p m).1 = PyResult.ok v) ∧
    (lookupField fs "response" = none →
      (query_ollama (HttpOutcome.success (Json.obj fs)) p m).1
        = PyResult.ok (Json.str "")) := by
  constructor <;> intro h <;> simp [query_ollama, h]

/-- C5 witness: a concrete reply with the response field and one without. -/
theorem c5_ollama_extraction_witness :
    lookupField [("response", Json.str "hi")] "response" = some (Json.str "hi") ∧
    (query_ollama (HttpOutcome.success (Json.obj [("response", Json.str "hi")]))
        "p" "m").1 = PyResult.ok (Json.str "hi") ∧
    lookupField [] "response" = none ∧
    (query_ollama (HttpOutcome.success (Json.obj [])) "p" "m").1
      = PyResult.ok (Json.str "") :=
  ⟨rfl, (c5_ollama_extraction [("response", Json.str "hi")] "p" "m" (Json.str "hi")).1 rfl,
    rfl, (c5_ollama_extraction [] "p" "m" (Json.str "")).2 rfl⟩

/-- C6: the selector maps a stripped line "1"/"2"/"3" to
ollama/openai/anthropic, repeats on any other line with no retry bound,
and on the input lines ["x", "y", "2"] resolves to openai leaving no
further input consumed. -/
theorem c6_selector :
    (∀ line rest, pyStrip line = "1" →
      select_ai_provider (line :: rest) = some ("ollama", rest)) ∧
    (∀ line rest, pyStrip line = "2" →
      select_ai_provider (line :: rest) = some ("openai", rest)) ∧
    (∀ line rest, pyStrip line = "3" →
      select_ai_provider (line :: rest) = some ("anthropic", rest)) ∧
    (∀ line rest, pyStrip line ≠ "1" → pyStrip line ≠ "2" → pyStrip line ≠ "3" →
      select_ai_provider (line :: rest) = select_ai_provider rest) ∧
    select_ai_provider ["x", "y", "2"] = some ("openai", []) := by
  refine ⟨?_, ?_, ?_, ?_, rfl⟩
  · intro line rest h; simp [select_ai_provider, h]
  · intro line rest h; simp [select_ai_provider, h]
  · intro line rest h; simp [select_ai_provider, h]
  · intro line rest h1 h2 h3; simp [select_ai_provider, h1, h2, h3]

/-- C6 witness: each mapping applied at a concrete line, the repeat case
applied at "junk", and the three-line scenario. -/
theorem c6_selector_witness :
    select_ai_provider ["1"] = some ("ollama", []) ∧
    select_ai_provider ["2"] = some ("openai", []) ∧
    select_ai_provider ["3"] = some ("anthropic", []) ∧
    select_ai_provider ["junk", "3"] = select_ai_provider ["3"] :=
  ⟨c6_selector.1 "1" [] rfl, c6_selector.2.1 "2" [] rfl,
    c6_selector.2.2.1 "3" [] rfl,
    c6_selector.2.2.2.1 "junk" ["3"] (by decide) (by decide) (by decide)⟩

/-- Reducing main_run once a selection hypothesis is available. -/
theorem main_run_eq_of_select (inputs : List String) (provider : String)
    (remaining : List String) (okey akey : Option String) (net : HttpOutcome)
    (cf : Bool) (hsel : select_ai_provider inputs = some (provider, remaining)) :
    main_run inputs okey akey net cf
      = main_after_select provider remaining okey akey net cf := by
  unfold main_run
  rw [hsel]

/-- The effect trace of the local daemon client holds only HTTP posts. -/
theorem query_ollama_trace (net : HttpOutcome) (p m : String) :
    ∀ e ∈ (query_ollama net p m).2, ∃ u q mo, e = Eff.httpPost u q mo := by
  intro e he
  cases net with
  | connectionError => simp [query_ollama] at he; exact ⟨_, _, _, he⟩
  | requestError msg => simp [query_ollama] at he; exact ⟨_, _, _, he⟩
  | invalidJson => simp [query_ollama] at he; exact ⟨_, _, _, he⟩
  | success body => cases body <;> simp [query_ollama] at he <;> exact ⟨_, _, _, he⟩

/-- The effect trace of the OpenAI client holds only HTTP posts. -/
theorem query_openai_trace (k : Option String) (net : HttpOutcome) (p m : String) :
    ∀ e ∈ (query_openai k net p m).2, ∃ u q mo, e = Eff.httpPost u q mo := by
  intro e he
  cases k with
  | none => simp [query_openai] at he
  | some key =>
    by_cases hk : key = ""
    · simp [query_openai, hk] at he
    · cases net with
      | connectionError => simp [query_openai, hk] at he; exact ⟨_, _, _, he⟩
      | requestError msg => simp [query_openai, hk] at he; exact ⟨_, _, _, he⟩
      | invalidJson => simp [query_openai, hk] at he; exact ⟨_, _, _, he⟩
      | success body =>
        cases hx : extract_openai body with
        | ok v => simp [query_openai, hk, hx] at he; exact ⟨_, _, _, he⟩
        | error err =>
          cases err <;> simp [query_openai, hk, hx] at he <;> exact ⟨_, _, _, he⟩

/-- The effect trace of the Anthropic client holds only HTTP posts. -/
theorem query_anthropic_trace (k : Option String) (net : HttpOutcome) (p m : String) :
    ∀ e ∈ (query_anthropic k net p m).2, ∃ u q mo, e = Eff.httpPost u q mo := by
  intro e he
  cases k with
  | none => simp [query_anthropic] at he
  | some key =>
    by_cases hk : key = ""
    · simp [query_anthropic, hk] at he
    · cases net with
      | connectionError => simp [query_anthropic, hk] at he; exact ⟨_, _, _, he⟩
      | requestError msg => simp [query_anthropic, hk] at he; exact ⟨_, _, _, he⟩
      | invalidJson => simp [query_anthropic, hk] at he; exact ⟨_, _, _, he⟩
      | success body =>
        cases hx : extract_anthropic body with
        | ok v => simp [query_anthropic, hk, hx] at he; exact ⟨_, _, _, he⟩
        | error err =>
          cases err <;> simp [query_anthropic, hk, hx] at he <;> exact ⟨_, _, _, he⟩

/-- The dispatch effect trace holds only HTTP posts: no display and no
clipboard write happens inside a provider client. -/
theorem get_ai_response_trace (provider p : String) (okey akey : Option String)
    (net : HttpOutcome) :
    ∀ e ∈ (get_ai_response provider p okey akey net).2,
      ∃ u q mo, e = Eff.httpPost u q mo := by
  unfold get_ai_response
  by_cases h1 : provider = "ollama"
  · rw [if_pos h1]; exact query_ollama_trace net p _
  · rw [if_neg h1]
    by_cases h2 : provider = "openai"
    · rw [if_pos h2]; exact query_openai_trace okey net p _
    · rw [if_neg h2]
      by_cases h3 : provider = "anthropic"
      · rw [if_pos h3]; exact query_anthropic_trace akey net p _
      · rw [if_neg h3]; intro e he; simp at he

/-- A string all of whose characters are whitespace strips to empty. -/
theorem pyStrip_eq_empty (s : String) (h : ∀ c ∈ s.data, isPySpace c = true) :
    pyStrip s = "" := by
  unfold pyStrip
  rw [List.dropWhile_eq_nil_iff.2 h]
  rfl

/-- C2: once a provider is selected, a remaining input that joins to an
empty or whitespace-only article makes main exit with status 1 and leave
an empty effect trace: no HTTP request and no clipboard write happens, for
any provider, credentials and network behavior. -/
theorem c2_blank_article (inputs : List String) (okey akey : Option String)
    (net : HttpOutcome) (cf : Bool) (provider : String) (remaining : List String)
    (hsel : select_ai_provider inputs = some (provider, remaining))
    (hws : ∀ c ∈ (get_user_input remaining).data, isPySpace c = true) :
    main_run inputs okey akey net cf = (PyResult.exit 1, []) := by
  rw [main_run_eq_of_select inputs provider remaining okey akey net cf hsel]
  unfold main_after_select
  rw [if_pos (pyStrip_eq_empty (get_user_input remaining) hws)]

/-- C2 witness: choice "1" followed by a whitespace-only article. -/
theorem c2_blank_article_witness :
    select_ai_provider ["1", "  ", ""] = some ("ollama", ["  ", ""]) ∧
    (∀ c ∈ (get_user_input ["  ", ""]).data, isPySpace c = true) ∧
    main_run ["1", "  ", ""] none none HttpOutcome.connectionError false
      = (PyResult.exit 1, []) :=
  ⟨rfl, by decide, c2_blank_article ["1", "  ", ""] none none
    HttpOutcome.connectionError false "ollama" ["  ", ""] rfl (by decide)⟩

/-- C4 counterexample: a successful local-daemon reply whose JSON object
lacks the response field does not terminate inside the client: query_ollama
returns normally with the empty string, so no ParseError and no fatal
termination is raised by the client itself. -/
theorem c4_counterexample :
    (query_ollama (HttpOutcome.success (Json.obj [])) "p" "m").1
        = PyResult.ok (Json.str "") ∧
    (query_ollama (HttpOutcome.success (Json.obj [])) "p" "m").1.isFatal = false :=
  ⟨rfl, rfl⟩

/-- C4 amended: on a successful HTTP response whose body is missing the
expected field or structure, the two cloud clients terminate the process
fatally; the local-daemon client instead returns the empty string, and the
whole run still ends fatally because the orchestrator exits with status 1
on the empty summary. -/
theorem c4_amended_parse_failures
    (key p m : String) (hkey : key ≠ "")
    (bodyA bodyB : Json) (eA eB : SubErr)
    (hA : extract_openai bodyA = Except.error eA)
    (hB : extract_anthropic bodyB = Except.error eB)
    (fs : List (String × Json)) (hfs : lookupField fs "response" = none)
    (inputs remaining : List String) (okey akey : Option String) (cf : Bool)
    (hsel : select_ai_provider inputs = some ("ollama", remaining))
    (hart : pyStrip (get_user_input remaining) ≠ "") :
    (query_openai (some key) (HttpOutcome.success bodyA) p m).1.isFatal = true ∧
    (query_anthropic (some key) (HttpOutcome.success bodyB) p m).1.isFatal = true ∧
    (query_ollama (HttpOutcome.success (Json.obj fs)) p m).1
      = PyResult.ok (Json.str "") ∧
    (main_run inputs okey akey (HttpOutcome.success (Json.obj fs)) cf).1
      = PyResult.exit 1 := by
  refine ⟨?_, ?_, ?_, ?_⟩
  · cases eA <;> simp [query_openai, hkey, hA, PyResult.isFatal]
  · cases eB <;> simp [query_anthropic, hkey, hB, PyResult.isFatal]
  · simp [query_ollama, hfs]
  · rw [main_run_eq_of_select inputs "ollama" remaining okey akey
      (HttpOutcome.success (Json.obj fs)) cf hsel]
    unfold main_after_select
    rw [if_neg hart]
    have hg : get_ai_response "ollama"
        (create_summary_prompt (get_user_input remaining)) okey akey
        (HttpOutcome.success (Json.obj fs))
        = (PyResult.ok (Json.str ""),
            [Eff.httpPost "http://localhost:11434/api/generate"
              (create_summary_prompt (get_user_input remaining)) "gemma3:latest"]) := by
      simp [get_ai_response, query_ollama, hfs]
    rw [hg]
    simp [pyTruthy]

/-- C4 amended witness: empty JSON objects for each client, and a whole
run through the local daemon. -/
theorem c4_amended_parse_failures_witness :
    extract_openai (Json.obj []) = Except.error SubErr.keyError ∧
    extract_anthropic (Json.obj []) = Except.error SubErr.keyError ∧
    (query_openai (some "k") (HttpOutcome.success (Json.obj [])) "p" "m").1.isFatal
      = true ∧
    (query_anthropic (some "k") (HttpOutcome.success (Json.obj [])) "p" "m").1.isFatal
      = true ∧
    (main_run ["1", "hello"] none none (HttpOutcome.success (Json.obj [])) false).1
      = PyResult.exit 1 := by
  have h := c4_amended_parse_failures "k" "p" "m" (by decide) (Json.obj [])
    (Json.obj []) SubErr.keyError SubErr.keyError rfl rfl [] rfl
    ["1", "hello"] ["hello"] none none false rfl (by decide)
  exact ⟨rfl, rfl, h.1, h.2.1, h.2.2.2⟩

/-- C7: the clipboard sink never raises to its caller: on a clipboard
failure it prints a warning and execution continues, and the final process
outcome of any run is the same whether or not the clipboard fails. -/
theorem c7_clipboard_nonfatal :
    (∀ text, copy_to_clipboard true text
      = [Eff.printMsg "Warning: Could not copy to clipboard"]) ∧
    (∀ inputs okey akey net cf1 cf2,
      (main_run inputs okey akey net cf1).1 = (main_run inputs okey akey net cf2).1) := by
  constructor
  · intro text; rfl
  · intro inputs okey akey net cf1 cf2
    cases hsel : select_ai_provider inputs with
    | none => unfold main_run; rw [hsel]
    | some pr =>
      obtain ⟨provider, remaining⟩ := pr
      rw [main_run_eq_of_select inputs provider remaining okey akey net cf1 hsel,
        main_run_eq_of_select inputs provider remaining okey akey net cf2 hsel]
      unfold main_after_select
      by_cases hb : pyStrip (get_user_input remaining) = ""
      · rw [if_pos hb, if_pos hb]
      · rw [if_neg hb, if_neg hb]
        rcases hg : get_ai_response provider
          (create_summary_prompt (get_user_input remaining)) okey akey net
          with ⟨r, effs⟩
        cases r with
        | ok summary =>
          dsimp only
          by_cases ht : pyTruthy summary
          · rw [if_pos ht, if_pos ht]
          · rw [if_neg ht, if_neg ht]
        | exit c => rfl
        | exn msg => rfl

/-- C8: when the provider client returns the empty string as summary, main
prints an error and exits with status 1; the trace holds no display and no
clipboard write. -/
theorem c8_empty_summary (inputs remaining : List String) (provider : String)
    (okey akey : Option String) (net : HttpOutcome) (cf : Bool) (effs : List Eff)
    (hsel : select_ai_provider inputs = some (provider, remaining))
    (hart : pyStrip (get_user_input remaining) ≠ "")
    (hget : get_ai_response provider (create_summary_prompt (get_user_input remaining))
        okey akey net = (PyResult.ok (Json.str ""), effs)) :
    main_run inputs okey akey net cf = (PyResult.exit 1, effs) ∧
    (∀ s, Eff.display s ∉ (main_run inputs okey akey net cf).2) ∧
    (∀ t, Eff.clipCopy t ∉ (main_run inputs okey akey net cf).2) := by
  have hmain : main_run inputs okey akey net cf = (PyResult.exit 1, effs) := by
    rw [main_run_eq_of_select inputs provider remaining okey akey net cf hsel]
    unfold main_after_select
    rw [if_neg hart, hget]
    simp [pyTruthy]
  refine ⟨hmain, ?_, ?_⟩
  · intro s hs
    rw [hmain] at hs
    obtain ⟨u, q, mo, he⟩ := get_ai_response_trace provider
      (create_summary_prompt (get_user_input remaining)) okey akey net
      (Eff.display s) (by rw [hget]; exact hs)
    exact Eff.noConfusion he
  · intro t ht
    rw [hmain] at ht
    obtain ⟨u, q, mo, he⟩ := get_ai_response_trace provider
      (create_summary_prompt (get_user_input remaining)) okey akey net
      (Eff.clipCopy t) (by rw [hget]; exact ht)
    exact Eff.noConfusion he

/-- C8 witness: the local daemon replies with a JSON object carrying no
response field, so the extracted summary is the empty string. -/
theorem c8_empty_summary_witness :
    get_ai_response "ollama" (create_summary_prompt (get_user_input ["hello"]))
        none none (HttpOutcome.success (Json.obj []))
      = (PyResult.ok (Json.str ""),
          [Eff.httpPost "http://localhost:11434/api/generate"
            (create_summary_prompt (get_user_input ["hello"])) "gemma3:latest"]) ∧
    main_run ["1", "hello"] none none (HttpOutcome.success (Json.obj [])) false
      = (PyResult.exit 1,
          [Eff.httpPost "http://localhost:11434/api/generate"
            (create_summary_prompt (get_user_input ["hello"])) "gemma3:latest"]) :=
  ⟨rfl, (c8_empty_summary ["1", "hello"] ["hello"] "ollama" none none
    (HttpOutcome.success (Json.obj [])) false
    [Eff.httpPost "http://localhost:11434/api/generate"
      (create_summary_prompt (get_user_input ["hello"])) "gemma3:latest"]
    rfl (by decide) rfl).1⟩

/-- The selector only ever returns one of the three provider identifiers. -/
theorem select_ai_provider_mem :
    ∀ (inputs : List String) (provider : String) (rest : List String),
      select_ai_provider inputs = some (provider, rest) →
      provider = "ollama" ∨ provider = "openai" ∨ provider = "anthropic" := by
  intro inputs
  induction inputs with
  | nil => intro p r h; simp [select_ai_provider] at h
  | cons line rest ih =>
    intro p r h
    by_cases h1 : pyStrip line = "1"
    · simp [select_ai_provider, h1] at h
      exact Or.inl h.1.symm
    · by_cases h2 : pyStrip line = "2"
      · simp [select_ai_provider, h1, h2] at h
        exact Or.inr (Or.inl h.1.symm)
      · by_cases h3 : pyStrip line = "3"
        · simp [select_ai_provider, h1, h2, h3] at h
          exact Or.inr (Or.inr h.1.symm)
        · simp only [select_ai_provider, h1, h2, h3, if_false] at h
          exact ih p r (by simpa [h1, h2, h3] using h)

/-- C9: any provider identifier produced by the selector makes the
dispatch in get_ai_response resolve to exactly one of the three provider
clients, so the defensive unknown-provider exit is unreachable from the
normal flow. -/
theorem c9_dispatch (inputs rest0 : List String) (provider prompt : String)
    (okey akey : Option String) (net : HttpOutcome)
    (hsel : select_ai_provider inputs = some (provider, rest0)) :
    (provider = "ollama" ∨ provider = "openai" ∨ provider = "anthropic") ∧
    (get_ai_response provider prompt okey akey net
        = query_ollama net prompt "gemma3:latest" ∨
      get_ai_response provider prompt okey akey net
        = query_openai okey net prompt "gpt-4" ∨
      get_ai_response provider prompt okey akey net
        = query_anthropic akey net prompt "claude-3-sonnet-20240229") := by
  have hp := select_ai_provider_mem inputs provider rest0 hsel
  refine ⟨hp, ?_⟩
  rcases hp with h | h | h
  · subst h; exact Or.inl rfl
  · subst h; exact Or.inr (Or.inl (by simp [get_ai_response]))
  · subst h; exact Or.inr (Or.inr (by simp [get_ai_response]))

/-- C9 witness: after the selection input "2", the dispatch resolves to a
provider client. -/
theorem c9_dispatch_witness :
    get_ai_response "openai" "p" none none HttpOutcome.connectionError
        = query_ollama HttpOutcome.connectionError "p" "gemma3:latest" ∨
      get_ai_response "openai" "p" none none HttpOutcome.connectionError
        = query_openai none HttpOutcome.connectionError "p" "gpt-4" ∨
      get_ai_response "openai" "p" none none HttpOutcome.connectionError
        = query_anthropic none HttpOutcome.connectionError "p"
            "claude-3-sonnet-20240229" :=
  (c9_dispatch ["2"] [] "openai" "p" none none HttpOutcome.connectionError rfl).2

/-- C10: the non-empty check on the summary does not strip whitespace: a
summary that is a non-empty string of whitespace characters is treated as
success, displayed, copied to the clipboard, and the run returns normally
(exit status 0). -/
theorem c10_whitespace_summary (inputs remaining : List String)
    (provider s : String) (okey akey : Option String) (net : HttpOutcome)
    (effs : List Eff)
    (hsel : select_ai_provider inputs = some (provider, remaining))
    (hart : pyStrip (get_user_input remaining) ≠ "")
    (hget : get_ai_response provider (create_summary_prompt (get_user_input remaining))
        okey akey net = (PyResult.ok (Json.str s), effs))
    (hne : s ≠ "") (_hws : ∀ c ∈ s.data, isPySpace c = true) :
    (main_run inputs okey akey net false).1 = PyResult.ok () ∧
    Eff.display (Json.str s) ∈ (main_run inputs okey akey net false).2 ∧
    Eff.clipCopy (Json.str s) ∈ (main_run inputs okey akey net false).2 := by
  have hmain : main_run inputs okey akey net false
      = (PyResult.ok (), effs ++ [Eff.display (Json.str s)]
          ++ [Eff.clipCopy (Json.str s),
              Eff.printMsg "Summary copied to clipboard!"]) := by
    rw [main_run_eq_of_select inputs provider remaining okey akey net false hsel]
    unfold main_after_select
    rw [if_neg hart, hget]
    simp [pyTruthy, hne, copy_to_clipboard]
  rw [hmain]
  refine ⟨rfl, ?_, ?_⟩ <;> simp

/-- C10 witness: the local daemon returns a single-space summary; the run
succeeds, displays it and copies it. -/
theorem c10_whitespace_summary_witness :
    (main_run ["1", "hello"] none none
        (HttpOutcome.success (Json.obj [("response", Json.str " ")])) false).1
      = PyResult.ok () ∧
    Eff.display (Json.str " ") ∈ (main_run ["1", "hello"] none none
        (HttpOutcome.success (Json.obj [("response", Json.str " ")])) false).2 ∧
    Eff.clipCopy (Json.str " ") ∈ (main_run ["1", "hello"] none none
        (HttpOutcome.success (Json.obj [("response", Json.str " ")])) false).2 :=
  c10_whitespace_summary ["1", "hello"] ["hello"] "ollama" " " none none
    (HttpOutcome.success (Json.obj [("response", Json.str " ")]))
    [Eff.httpPost "http://localhost:11434/api/generate"
      (create_summary_prompt (get_user_input ["hello"])) "gemma3:latest"]
    rfl (by decide) rfl (by decide) (by decide)
